import Mathlib

/-!
Verification of the deckster presentation-generation workflow.

This file gives a shallow embedding, in Lean, of the workflow state machine
in `src/workflows/main.py`, the Director (Inbound) agent in
`src/agents/director_in.py`, the message models and validators in
`src/models/messages.py` and `src/models/presentation.py`, and the
per-connection message dispatcher in `src/api/websocket.py`.

Modelling conventions:
- Python floats holding completeness scores in `[0, 1]` are modelled as
  rationals (`mkRat`); all score literals in the source (0.1, 0.5, 0.8, 0.9)
  are exactly representable and only compared, never combined, so the
  embedding is faithful on every comparison the code performs.
- Python `str` operations used by the code (`.lower()`, `.strip()`,
  substring membership `in`, `startswith`) are re-implemented
  character-by-character so that they evaluate inside the kernel; `.lower()`
  is modelled on the ASCII range, which covers every string the code
  compares.
- Python dictionaries carrying requirements are modelled as association
  lists with first-match lookup, matching insertion-order iteration of the
  source dictionaries.
- Exceptions are modelled by `Except`; a caught Python exception is a
  `PyError` carrying the class name and the message, mirroring the
  substring tests `"X" in str(type(error))` / `"x" in str(error).lower()`
  that the source performs on them.
-/

namespace Deckster

/-! ## Python string primitives (ASCII) -/

/-- ASCII lowering of one character, as Python `str.lower` acts on ASCII. -/
def lowerChar (c : Char) : Char :=
  if 65 ≤ c.toNat ∧ c.toNat ≤ 90 then Char.ofNat (c.toNat + 32) else c

/-- Python `s.lower()` restricted to ASCII text. -/
def pyLower (s : String) : String := ⟨s.data.map lowerChar⟩

/-- Whitespace recognised by Python `str.strip`. -/
def isSpaceChar (c : Char) : Bool := c = ' ' || c = '\t' || c = '\n' || c = '\r'

/-- Python `s.strip()`. -/
def pyStrip (s : String) : String :=
  ⟨((s.data.dropWhile isSpaceChar).reverse.dropWhile isSpaceChar).reverse⟩

/-- Substring search on character lists. -/
def infixChars : List Char → List Char → Bool
  | s, pat =>
    if pat.isPrefixOf s then true
    else
      match s with
      | [] => false
      | _ :: t => infixChars t pat

/-- Python `pat in s` on strings. -/
def strContains (s pat : String) : Bool := infixChars s.data pat.data

/-- Python `s.startswith(pat)`. -/
def startsWithStr (s pat : String) : Bool := pat.data.isPrefixOf s.data

/-- Python `"sep".join(parts)` (used to model `str(slide)` scans). -/
def joinWith (sep : String) : List String → String
  | [] => ""
  | [x] => x
  | x :: xs => x ++ sep ++ joinWith sep xs

/-! ## Data model

`RequirementAnalysis`, `ClarificationQuestion`, `DirectorInboundOutput`
are from `src/models/agents.py`; `ClarificationRound` is from
`src/models/messages.py`; slides and presentations are from
`src/models/presentation.py`; `WorkflowState` is the `TypedDict` of
`src/workflows/main.py` restricted to the fields the verified claims
mention (the placeholder agent-output fields `layouts`,
`research_findings`, `visual_assets`, `charts`, `diagrams` are carried by
no claim and are omitted). -/

/-- `src/models/agents.py` `ClarificationQuestion` (string-typed enums). -/
structure ClarificationQuestion where
  question : String
  questionType : String := "text"
  required : Bool := true
  category : String := "general"
  priority : String := "medium"
  deriving DecidableEq

/-- `src/models/messages.py` `ClarificationRound`; `max_rounds` defaults to
3 and `current_round` defaults to 1 in the pydantic model. -/
structure ClarificationRound where
  questions : List ClarificationQuestion
  context : Option String := none
  maxRounds : Nat := 3
  currentRound : Nat := 1
  deriving DecidableEq

/-- `src/models/agents.py` `RequirementAnalysis`. -/
structure RequirementAnalysis where
  completenessScore : ℚ
  missingInformation : List String := []
  detectedIntent : String
  presentationType : String
  estimatedSlides : Nat
  complexityLevel : String
  keyTopics : List String
  suggestedFlow : List String
  deriving DecidableEq

/-- One entry of the `slide_outlines` list inside the structure dictionary
produced by `_run_structure_generation` and consumed by
`assemble_presentation`; absent keys are `none`. -/
structure SlideOutline where
  title : Option String := none
  layoutTypeField : Option String := none
  notes : Option String := none
  contentPoints : List String := []
  deriving DecidableEq

/-- The structure dictionary (`initial_structure`) passed between the
Director and the workflow; absent keys are `none`. -/
structure PresentationStructure where
  title : Option String := none
  subtitle : Option String := none
  description : Option String := none
  estimatedSlides : Nat := 10
  slideOutlines : List SlideOutline := []
  deriving DecidableEq

/-- A value stored in a requirements dictionary. -/
inductive ReqValue
  | str (s : String)
  | nat (n : Nat)
  deriving DecidableEq

/-- A Python requirements dictionary, as an insertion-ordered association
list. -/
abbrev Requirements := List (String × ReqValue)

/-- First-match lookup, i.e. Python `d.get(key)`. -/
def lookupKey : Requirements → String → Option ReqValue
  | [], _ => none
  | (k, v) :: rest, key => if k = key then some v else lookupKey rest key

/-- `src/models/agents.py` `DirectorInboundOutput`: `output_type` plus the
optional payloads; `next_agents` defaults to the empty list and
`initial_structure` and `clarification_questions` default to `None`. -/
structure DirectorInboundOutput where
  outputType : String
  analysis : Option RequirementAnalysis := none
  clarificationQuestions : Option (List ClarificationQuestion) := none
  initialStructure : Option PresentationStructure := none
  nextAgents : List String := []
  deriving DecidableEq

/-- `src/agents/director_in.py` `DirectorInboundConfig`:
`max_clarification_rounds = 3`, `min_completeness_score = 0.8`. -/
structure DirectorInboundConfig where
  maxClarificationRounds : Nat := 3
  minCompletenessScore : ℚ := mkRat 4 5
  deriving DecidableEq

/-- The configuration `DirectorInboundAgent()` is built with. -/
def defaultConfig : DirectorInboundConfig := {}

/-- A caught Python exception: its class name and its message. The source
classifies exceptions by the substring tests `"X" in str(type(error))` and
`"x" in str(error).lower()`; since every pattern it tests is a plain
alphanumeric word, testing against the class name is equivalent to testing
against the full `<class 'X'>` rendering. -/
structure PyError where
  typeName : String
  message : String
  deriving DecidableEq

/-- `src/models/presentation.py` `ComponentSpec` (only its identity is
needed: assembly always attaches an empty component list). -/
structure Component where
  componentId : String
  deriving DecidableEq

/-- `src/models/presentation.py` `Slide`, restricted to the fields
`assemble_presentation` populates and the validators constrain. -/
structure Slide where
  slideNumber : Nat
  title : String
  layoutType : String
  components : List Component := []
  speakerNotes : String := ""
  deriving DecidableEq

/-- `src/models/presentation.py` `Presentation`, restricted to the fields
`assemble_presentation` populates and the validators constrain. -/
structure Presentation where
  title : String
  subtitle : Option String := none
  description : Option String := none
  slides : List Slide
  deriving DecidableEq

/-- `src/workflows/main.py` `WorkflowState` (claim-relevant fields). -/
structure WorkflowState where
  currentPhase : String
  needsClarification : Bool
  activeAgents : List String
  completedAgents : List String
  clarificationRounds : List ClarificationRound
  requirementAnalysis : Option RequirementAnalysis
  presentationStructure : Option PresentationStructure
  finalPresentation : Option Presentation
  errorCount : Nat
  deriving DecidableEq

/-- The initial state built by `WorkflowRunner.start_generation`. -/
def initialWorkflowState : WorkflowState where
  currentPhase := "analysis"
  needsClarification := false
  activeAgents := []
  completedAgents := []
  clarificationRounds := []
  requirementAnalysis := none
  presentationStructure := none
  finalPresentation := none
  errorCount := 0

/-! ## Director (Inbound) agent — `src/agents/director_in.py`

The LLM capability is consumed through `BaseAgent.run_llm`
(`src/agents/base.py`): when `pydantic_ai` is unavailable it returns the
plain string `"Mock response for prompt: ..."` instead of structured data,
and every structured-output consumer then takes its deterministic fallback
branch. The embedding models those deterministic fallback paths; where a
step parses an LLM string response, the parse itself is a parameter
(`jsonParse`), since `json.loads` is Python library code. -/

/-- `BaseAgent.run_llm` when the LLM capability is unavailable
(`src/agents/base.py`, mock branch): a plain string echoing the prompt. -/
def mockLLMResponse (prompt : String) : String :=
  "Mock response for prompt: " ++ (⟨prompt.data.take 100⟩ : String) ++ "..."

/-- The fixed low-confidence analysis returned by
`DirectorInboundAgent._parse_analysis_response` when the response is not
parseable JSON (the bare-except branch). -/
def fallbackAnalysis : RequirementAnalysis where
  completenessScore := mkRat 1 2
  missingInformation := ["Unable to parse response"]
  detectedIntent := "presentation"
  presentationType := "general"
  estimatedSlides := 10
  complexityLevel := "moderate"
  keyTopics := ["Topic extraction failed"]
  suggestedFlow := ["Introduction", "Content", "Conclusion"]

/-- `DirectorInboundAgent._parse_analysis_response`: attempt to parse the
LLM text response (parse given as an argument, `none` meaning
`json.loads`/model validation raised); on failure return the fixed
fallback analysis instead of raising. -/
def parseAnalysisResponse (jsonParse : String → Option RequirementAnalysis)
    (response : String) : RequirementAnalysis :=
  match jsonParse response with
  | some a => a
  | none => fallbackAnalysis

/-- `DirectorInboundAgent._analyze_user_request`, after the analysis is
obtained: branch on `completeness_score < min_completeness_score`. The
clarification branch sets `output_type = "clarification"` and empty
`next_agents`; the other branch sets `output_type = "structure"` and
`next_agents = ["ux_architect", "researcher"]`. Neither branch passes
`clarification_questions` or `initial_structure`, so both stay at their
`None` defaults. -/
def analyzeUserRequest (cfg : DirectorInboundConfig)
    (analysis : RequirementAnalysis) : DirectorInboundOutput :=
  if analysis.completenessScore < cfg.minCompletenessScore then
    { outputType := "clarification", analysis := some analysis, nextAgents := [] }
  else
    { outputType := "structure", analysis := some analysis
      nextAgents := ["ux_architect", "researcher"] }

/-- One outline of the fallback structure built by
`_run_structure_generation` when the LLM result is unstructured. -/
def fallbackSlideOutline (i : Nat) : SlideOutline where
  title := some ("Slide " ++ toString i)
  layoutTypeField := some "content"
  contentPoints := ["Content to be added"]

/-- The fallback structure of `_run_structure_generation`
(`requirements.get("topic", "Presentation")` as title, ten generic content
slides). Only a string-valued `topic` requirement is used as title, as in
the source dictionary. -/
def fallbackStructure (requirements : Requirements) : PresentationStructure where
  title := some (match lookupKey requirements "topic" with
    | some (ReqValue.str t) => t
    | _ => "Presentation")
  description := some "AI-generated presentation"
  estimatedSlides := 10
  slideOutlines := (List.range' 1 10).map fallbackSlideOutline

/-- The text scanned by `_determine_next_agents` for one outline: the
source applies `str(slide).lower()` to the outline dictionary; the
scanned patterns (`visual`, `chart`, `data`, `diagram`, `process`) occur
in no dictionary key, so scanning the rendered values is equivalent. -/
def outlineRepr (o : SlideOutline) : String :=
  joinWith " "
    ((o.title.getD "") :: (o.layoutTypeField.getD "") :: (o.notes.getD "") :: o.contentPoints)

/-- `DirectorInboundAgent._determine_next_agents`: `ux_architect` and
`researcher` always; content-based activation of `visual_designer`,
`data_analyst` and `ux_analyst`. -/
def determineNextAgents (st : PresentationStructure) : List String :=
  let hasTok (pat : String) : Bool :=
    st.slideOutlines.any (fun o => strContains (pyLower (outlineRepr o)) pat)
  let base := ["ux_architect", "researcher"]
  let withVisual := if hasTok "visual" then base ++ ["visual_designer"] else base
  let withData :=
    if hasTok "chart" || hasTok "data" then withVisual ++ ["data_analyst"] else withVisual
  if hasTok "diagram" || hasTok "process" then withData ++ ["ux_analyst"] else withData

/-- `DirectorInboundAgent._create_presentation_structure` on the
deterministic fallback path (similarity search fails to `[]`, structure
generation falls back): output type `structure` with the fallback
structure and the content-determined next agents. -/
def createPresentationStructure (requirements : Requirements) : DirectorInboundOutput :=
  let st := fallbackStructure requirements
  { outputType := "structure", initialStructure := some st
    nextAgents := determineNextAgents st }

/-- The fallback question list of `_run_clarification_generation` when the
LLM result is unstructured: one generic question per missing-information
item, limited to 5. -/
def fallbackClarificationQuestions (missingInfo : List String) : List ClarificationQuestion :=
  (missingInfo.take 5).map (fun info =>
    { question := "Could you please provide more details about " ++ info ++ "?"
      questionType := "text", required := true, category := "general", priority := "medium" })

/-- Insert `key ↦ v` only when `key` is absent — one iteration of the
defaults loop in `_create_structure_from_partial_info`. -/
def insertIfMissing (reqs : Requirements) (key : String) (v : ReqValue) : Requirements :=
  if (lookupKey reqs key).isSome then reqs else reqs ++ [(key, v)]

/-- The `defaults` dictionary of `_create_structure_from_partial_info`. -/
def defaultRequirementValues (estimatedSlides : Nat) : Requirements :=
  [("target_audience", ReqValue.str "general business audience"),
   ("duration", ReqValue.str "15-20 minutes"),
   ("style", ReqValue.str "professional"),
   ("slides", ReqValue.nat estimatedSlides)]

/-- The defaults loop of `_create_structure_from_partial_info`: fill in
each default for a key not already present. -/
def fillDefaults (reqs : Requirements) (estimatedSlides : Nat) : Requirements :=
  (defaultRequirementValues estimatedSlides).foldl
    (fun acc kv => insertIfMissing acc kv.1 kv.2) reqs

/-- `DirectorInboundAgent._create_structure_from_partial_info`: fill
defaults for missing requirements, then create the structure from them
(the lowered `confidence_score` is not claim-relevant and is omitted). -/
def createStructureFromDefaults (analysis : RequirementAnalysis)
    (reqs : Requirements) : DirectorInboundOutput :=
  createPresentationStructure (fillDefaults reqs analysis.estimatedSlides)

/-- The pydantic v2 `ValidationError` raised when a
`messages.ClarificationRound` is constructed from
`agents.ClarificationQuestion` instances. -/
def pydanticQuestionError : PyError where
  typeName := "ValidationError"
  message := "Input should be a valid dictionary or instance of ClarificationQuestion"

/-- Constructing `messages.ClarificationRound(questions=qs, ...)` from the
question objects the Director produces: `director_in.py` imports
`ClarificationQuestion` from `models/agents.py` but `ClarificationRound`
from `models/messages.py`, whose `questions` field is typed with the
distinct `messages.ClarificationQuestion` class. Pydantic v2 rejects
instances of a foreign `BaseModel` class, so the construction raises a
`ValidationError` for every non-empty question list and succeeds only on
the empty list (an empty list has no items to validate). -/
def mkMessagesRound (qs : List ClarificationQuestion) (context : Option String)
    (maxRounds currentRound : Nat) : Except PyError ClarificationRound :=
  match qs with
  | [] =>
      Except.ok { questions := [], context := context, maxRounds := maxRounds
                  currentRound := currentRound }
  | _ :: _ => Except.error pydanticQuestionError

/-- `DirectorInboundAgent._generate_clarifications` over the agent's
per-session `clarification_history` (`hist`): compute
`round_number = len(hist) + 1`; above `max_clarification_rounds`, refuse
and build a structure from partial information instead; otherwise
construct a `messages.ClarificationRound` carrying
`current_round = round_number` from the generated question list — a
construction that raises a pydantic `ValidationError` (before the history
append) whenever at least one question was generated, because the
questions are `agents.ClarificationQuestion` instances — and in the only
succeeding case append the round to the history and return a
clarification output together with the updated history. -/
def generateClarifications (cfg : DirectorInboundConfig)
    (hist : List ClarificationRound) (analysis : RequirementAnalysis)
    (reqs : Requirements) :
    Except PyError (DirectorInboundOutput × List ClarificationRound) :=
  let roundNumber := hist.length + 1
  if cfg.maxClarificationRounds < roundNumber then
    Except.ok (createStructureFromDefaults analysis reqs, hist)
  else
    let qs := fallbackClarificationQuestions analysis.missingInformation
    match mkMessagesRound qs
        (some ("Based on your request for a " ++ analysis.presentationType ++
          " presentation, I need some additional information:"))
        cfg.maxClarificationRounds roundNumber with
    | Except.error e => Except.error e
    | Except.ok newRound =>
        Except.ok ({ outputType := "clarification", clarificationQuestions := some qs },
          hist ++ [newRound])

/-- `DirectorInboundAgent._process_clarification_response`: merge the
response into the session requirements (`mergedReqs`), re-run the
requirement analysis (`analysis`), then either create the structure (score
reached) or generate another clarification round (which raises as soon as
a non-empty question list is turned into a round). -/
def processClarificationResponseAgent (cfg : DirectorInboundConfig)
    (hist : List ClarificationRound) (analysis : RequirementAnalysis)
    (mergedReqs : Requirements) :
    Except PyError (DirectorInboundOutput × List ClarificationRound) :=
  if cfg.minCompletenessScore ≤ analysis.completenessScore then
    Except.ok (createPresentationStructure mergedReqs, hist)
  else
    generateClarifications cfg hist analysis mergedReqs

/-! ## Error classification — `MockWorkflow` in `src/workflows/main.py` -/

/-- The network/timeout class names `_is_recoverable_error` treats as
recoverable. -/
def recoverableErrorTypeNames : List String :=
  ["TimeoutError", "ConnectionError", "HTTPError", "RequestException"]

/-- The import-style class names `_is_recoverable_error` treats as
non-recoverable. -/
def nonRecoverableErrorTypeNames : List String :=
  ["ImportError", "ModuleNotFoundError", "AttributeError"]

/-- `MockWorkflow._is_recoverable_error`, with its checks in source
order: row-level-security message text, validation errors, network and
timeout errors, import-style errors, and a recoverable default. -/
def isRecoverableError (e : PyError) : Bool :=
  if strContains (pyLower e.message) "row-level security policy" then true
  else if strContains e.typeName "ValidationError" then true
  else if recoverableErrorTypeNames.any (fun t => strContains e.typeName t) then true
  else if nonRecoverableErrorTypeNames.any (fun t => strContains e.typeName t) then false
  else true

/-- The retry cap `max_retries = 3` of `MockWorkflow.astream`. -/
def maxRetries : Nat := 3

/-- The exception branch of `MockWorkflow.astream`: increment
`error_count`; below the cap and recoverable, move to `error_recovery`,
otherwise to `error`. -/
def mockWorkflowErrorUpdate (s : WorkflowState) (e : PyError) : WorkflowState :=
  let errorCount := s.errorCount + 1
  if errorCount < maxRetries ∧ isRecoverableError e = true then
    { s with currentPhase := "error_recovery", errorCount := errorCount }
  else
    { s with currentPhase := "error", errorCount := errorCount }

/-! ## Workflow node functions — `src/workflows/main.py`

Each LangGraph node is an async function from the current state to an
update dictionary; LangGraph merges the update into the state, using the
`operator.add` reducer (list concatenation) for `clarification_rounds`
and plain replacement for the other keys. Each node function is embedded
as a total state transformer applying exactly that merge; the result of
the embedded Director call feeding a node is the node's second
argument. -/

/-- The round constructed by the workflow nodes:
`ClarificationRound(questions=...)`, every other field at its pydantic
default (`current_round = 1`, `max_rounds = 3`). -/
def workflowRound (qs : List ClarificationQuestion) : ClarificationRound :=
  { questions := qs }

/-- Node `analyze` (`analyze_request`): store the analysis, then branch on
the Director output type: `greeting`, `clarification` (appending a round
only when the output carries questions), or the generation branch, which
copies `initial_structure` and `next_agents` into the state. -/
def analyzeRequestNode (s : WorkflowState) (result : DirectorInboundOutput) :
    WorkflowState :=
  let s := { s with requirementAnalysis := result.analysis }
  if result.outputType = "greeting" then
    { s with needsClarification := false, currentPhase := "greeting" }
  else if result.outputType = "clarification" then
    let s := { s with needsClarification := true, currentPhase := "clarification" }
    match result.clarificationQuestions with
    | some qs =>
        { s with clarificationRounds := s.clarificationRounds ++ [workflowRound qs] }
    | none => s
  else
    { s with needsClarification := false, currentPhase := "generation"
             presentationStructure := result.initialStructure
             activeAgents := result.nextAgents }

/-- Node `clarify` (`generate_clarifications`): only sets the phase. -/
def generateClarificationsNode (s : WorkflowState) : WorkflowState :=
  { s with currentPhase := "clarification" }

/-- Node `process_response` (`process_clarification_response`): a
clarification output appends one `ClarificationRound` built with pydantic
defaults; any other output moves to generation, copying
`initial_structure` and `next_agents`. -/
def processClarificationResponseNode (s : WorkflowState)
    (result : DirectorInboundOutput) : WorkflowState :=
  if result.outputType = "clarification" then
    { s with clarificationRounds :=
        s.clarificationRounds ++ [workflowRound (result.clarificationQuestions.getD [])] }
  else
    { s with needsClarification := false, currentPhase := "generation"
             presentationStructure := result.initialStructure
             activeAgents := result.nextAgents }

/-- Node `structure` (`create_structure`): no update when a structure
already exists, otherwise store the Director structure and agents. -/
def createStructureNode (s : WorkflowState) (result : DirectorInboundOutput) :
    WorkflowState :=
  if s.presentationStructure.isSome then s
  else
    { s with presentationStructure := result.initialStructure
             activeAgents := result.nextAgents
             currentPhase := "generation" }

/-- Node `generate` (`run_parallel_agents`): in one update, mark every
active agent completed and move the phase to `assembly` (the simulated
placeholder outputs touch only fields carried by no claim). -/
def runParallelAgents (s : WorkflowState) : WorkflowState :=
  { s with completedAgents := s.activeAgents, currentPhase := "assembly" }

/-- Conditional edge `should_clarify`. -/
def shouldClarify (s : WorkflowState) : String :=
  if s.needsClarification then "clarify" else "structure"

/-- Conditional gate `all_agents_complete`:
`set(active).issubset(set(completed))`. -/
def allAgentsComplete (s : WorkflowState) : String :=
  if s.activeAgents.all (fun a => decide (a ∈ s.completedAgents)) then "assemble"
  else "wait"

/-! ## Assembly — `assemble_presentation` with the pydantic validators of
`src/models/presentation.py` -/

/-- The `LayoutType` enumeration values. -/
def validLayoutTypes : List String :=
  ["hero", "content", "chart_focused", "comparison", "closing",
   "section_divider", "image_focused", "quote", "team", "timeline"]

/-- The per-layout component limits of `Slide.validate_component_count`
(default 6). -/
def layoutComponentLimit (layout : String) : Nat :=
  if layout = "hero" then 3
  else if layout = "content" then 6
  else if layout = "chart_focused" then 3
  else if layout = "comparison" then 4
  else if layout = "closing" then 3
  else if layout = "section_divider" then 2
  else if layout = "image_focused" then 2
  else if layout = "quote" then 2
  else if layout = "team" then 8
  else if layout = "timeline" then 10
  else 6

/-- The pydantic constraints on one `Slide`: `slide_number ≥ 1`, title at
most 200 characters, a valid layout type, and the per-layout component
limit (overlap checking is vacuous on empty component lists). -/
def slideValid (sl : Slide) : Bool :=
  decide (1 ≤ sl.slideNumber) && decide (sl.title.length ≤ 200) &&
  decide (sl.layoutType ∈ validLayoutTypes) &&
  decide (sl.components.length ≤ layoutComponentLimit sl.layoutType)

/-- `Presentation.validate_slide_numbers`: the numbers must equal
`1, 2, ..., n`. -/
def sequentialNumbers (slides : List Slide) : Bool :=
  decide (slides.map (fun sl => sl.slideNumber) = List.range' 1 slides.length)

/-- Constructing a `Presentation(...)` with its pydantic validation:
per-slide validation (raised while the slide objects are built), the
field length bounds, `validate_slide_numbers`, and
`validate_minimum_slides`. -/
def mkPresentation (title : String) (subtitle description : Option String)
    (slides : List Slide) : Except String Presentation :=
  if !(slides.all slideValid) then Except.error "slide validation failed"
  else if 200 < title.length then Except.error "title too long"
  else if 300 < (subtitle.getD "").length then Except.error "subtitle too long"
  else if 1000 < (description.getD "").length then Except.error "description too long"
  else if !(sequentialNumbers slides) then
    Except.error "Slide numbers must be sequential starting from 1"
  else if slides.length < 1 then
    Except.error "Presentation must have at least one slide"
  else
    Except.ok { title := title, subtitle := subtitle, description := description
                slides := slides }

/-- One slide built by the assembly loop (`enumerate(..., 1)` gives the
1-based index `i`): title, layout and notes from the outline with the
source defaults, and an empty component list. -/
def slideFromOutline (i : Nat) (o : SlideOutline) : Slide where
  slideNumber := i
  title := o.title.getD ("Slide " ++ toString i)
  layoutType := o.layoutTypeField.getD "content"
  components := []
  speakerNotes := o.notes.getD ""

/-- The assembly loop over `structure.get("slide_outlines", [])`. -/
def slidesFromOutlines : Nat → List SlideOutline → List Slide
  | _, [] => []
  | i, o :: rest => slideFromOutline i o :: slidesFromOutlines (i + 1) rest

/-- `state.get("presentation_structure", {})` when no structure is set. -/
def emptyStructure : PresentationStructure := {}

/-- Node `assemble` (`assemble_presentation`): build the slides from the
outlines and construct the final `Presentation`; a validation failure of
the pydantic model is a raised exception (`Except.error`), a success
stores the presentation and moves the phase to `completed`. -/
def assemblePresentation (s : WorkflowState) : Except String WorkflowState :=
  let st := s.presentationStructure.getD emptyStructure
  match mkPresentation (st.title.getD "Untitled Presentation") st.subtitle
      st.description (slidesFromOutlines 1 st.slideOutlines) with
  | Except.ok p =>
      Except.ok { s with finalPresentation := some p, currentPhase := "completed" }
  | Except.error e => Except.error e

/-! ## The compiled workflow graph — `create_workflow`

The graph wires: entry point `analyze`; conditional edges from `analyze`
through `should_clarify` to `clarify` or `structure`; `clarify → END`;
`process_response → analyze`; `structure → generate → assemble → END`.
A configuration pairs the node about to execute with the current state; a
new `astream` call resumes at the entry point with the carried state. The
`MockWorkflow` fallback executes only the `analyze` node and converts a
raised exception into the error phases, which appears here as the
`analyzeFailure` step. -/

/-- The graph nodes of `create_workflow` (`finished` is LangGraph `END`;
`buildStructure` is the node registered as `"structure"`). -/
inductive GraphNode
  | analyze
  | clarify
  | processResponse
  | buildStructure
  | generate
  | assemble
  | finished
  deriving DecidableEq

/-- The conditional edge after `analyze`, routed by `should_clarify`. -/
def nodeAfterAnalyze (s : WorkflowState) : GraphNode :=
  if shouldClarify s = "clarify" then GraphNode.clarify else GraphNode.buildStructure

/-- One execution step of the workflow: a node of the compiled graph runs
on the current state (Director results are unconstrained inputs), or a
raised exception is converted by the `MockWorkflow` error branch, or a new
`astream` call re-enters the graph at `analyze` with the carried state. -/
inductive GraphStep : GraphNode × WorkflowState → GraphNode × WorkflowState → Prop
  | analyzeStep (s : WorkflowState) (r : DirectorInboundOutput) :
      GraphStep (GraphNode.analyze, s)
        (nodeAfterAnalyze (analyzeRequestNode s r), analyzeRequestNode s r)
  | analyzeFailure (s : WorkflowState) (e : PyError) :
      GraphStep (GraphNode.analyze, s) (GraphNode.finished, mockWorkflowErrorUpdate s e)
  | clarifyStep (s : WorkflowState) :
      GraphStep (GraphNode.clarify, s) (GraphNode.finished, generateClarificationsNode s)
  | processResponseStep (s : WorkflowState) (r : DirectorInboundOutput) :
      GraphStep (GraphNode.processResponse, s)
        (GraphNode.analyze, processClarificationResponseNode s r)
  | structureStep (s : WorkflowState) (r : DirectorInboundOutput) :
      GraphStep (GraphNode.buildStructure, s) (GraphNode.generate, createStructureNode s r)
  | generateStep (s : WorkflowState) :
      GraphStep (GraphNode.generate, s) (GraphNode.assemble, runParallelAgents s)
  | assembleStep (s s2 : WorkflowState) (h : assemblePresentation s = Except.ok s2) :
      GraphStep (GraphNode.assemble, s) (GraphNode.finished, s2)
  | restartStep (s : WorkflowState) :
      GraphStep (GraphNode.finished, s) (GraphNode.analyze, s)

/-- Configurations reachable from the initial state at the entry point. -/
inductive GraphReachable : GraphNode × WorkflowState → Prop
  | init : GraphReachable (GraphNode.analyze, initialWorkflowState)
  | step {c c2 : GraphNode × WorkflowState} :
      GraphReachable c → GraphStep c c2 → GraphReachable c2

/-- One execution step of the program as actually wired. `GraphStep`
over-approximates by letting every registered node fire on an arbitrary
Director output; `ExecStep` restricts to the steps real runs perform:
`create_workflow` wires no edge into `process_response` (the node has only
an outgoing edge), and every new `astream` call — including the one
`WorkflowRunner.process_clarification` makes to process a clarification
response — enters the compiled graph at the entry point `analyze`
(`MockWorkflow.astream` likewise runs only the analyze step). The node
`analyze` is therefore always fed an output of `_analyze_user_request`,
i.e. `analyzeUserRequest cfg a` for some configuration and analysis; the
other steps follow the graph edges unchanged. -/
inductive ExecStep : GraphNode × WorkflowState → GraphNode × WorkflowState → Prop
  | analyzeStep (s : WorkflowState) (cfg : DirectorInboundConfig)
      (a : RequirementAnalysis) :
      ExecStep (GraphNode.analyze, s)
        (nodeAfterAnalyze (analyzeRequestNode s (analyzeUserRequest cfg a)),
         analyzeRequestNode s (analyzeUserRequest cfg a))
  | analyzeFailure (s : WorkflowState) (e : PyError) :
      ExecStep (GraphNode.analyze, s) (GraphNode.finished, mockWorkflowErrorUpdate s e)
  | clarifyStep (s : WorkflowState) :
      ExecStep (GraphNode.clarify, s) (GraphNode.finished, generateClarificationsNode s)
  | structureStep (s : WorkflowState) (r : DirectorInboundOutput) :
      ExecStep (GraphNode.buildStructure, s) (GraphNode.generate, createStructureNode s r)
  | generateStep (s : WorkflowState) :
      ExecStep (GraphNode.generate, s) (GraphNode.assemble, runParallelAgents s)
  | assembleStep (s s2 : WorkflowState) (h : assemblePresentation s = Except.ok s2) :
      ExecStep (GraphNode.assemble, s) (GraphNode.finished, s2)
  | restartStep (s : WorkflowState) :
      ExecStep (GraphNode.finished, s) (GraphNode.analyze, s)

/-- Configurations reachable by real executions (any interleaving of
initial requests and clarification responses within one request). -/
inductive ExecReachable : GraphNode × WorkflowState → Prop
  | init : ExecReachable (GraphNode.analyze, initialWorkflowState)
  | step {c c2 : GraphNode × WorkflowState} :
      ExecReachable c → ExecStep c c2 → ExecReachable c2

/-! ## Inbound message validation and dispatch —
`src/models/messages.py` and `src/api/websocket.py`

An inbound JSON object is modelled by `RawMessage` with `none` for absent
keys. `validate_message` maps the `type` tag to a pydantic model; a
pydantic validation failure is a `ValueError`, which `_process_message`
catches and reports as a `system` message with level `error`. Outbound
messages are modelled by their claim-relevant shape: the message type,
level/code for system messages, source and chat-data type for director
messages. -/

/-- An outbound protocol message as sent by the handler. -/
inductive OutMessage
  | systemMsg (level code message : String)
  | chatMsg (source chatType : String)
  | slideMsg (source : String) (slideCount : Nat)
  | connMsg (status : String)
  deriving DecidableEq

/-- The `data` object of a `user_input` message (absent keys are
`none`). -/
structure MessageData where
  text : Option String := none
  responseTo : Option String := none
  deriving DecidableEq

/-- A raw inbound message dictionary (absent keys are `none`). -/
structure RawMessage where
  msgType : Option String := none
  sessionId : Option String := none
  data : Option MessageData := none
  action : Option String := none
  connStatus : Option String := none
  deriving DecidableEq

/-- A message accepted by `validate_message`, reduced to what the
dispatcher inspects. -/
inductive ParsedMessage
  | userInput (sessionId : String) (d : MessageData)
  | frontendAction (sessionId action : String)
  | connectionControl (status : String)
  | otherType (t : String)
  deriving DecidableEq

/-- `UserInput.validate_data_structure`: the `data` object must contain a
`text` field, and `len(data.get("text", ""))` may not exceed 5000. -/
def validateDataStructure (d : MessageData) : Except String MessageData :=
  match d.text with
  | none => Except.error "Data must contain fields: text"
  | some t =>
      if 5000 < t.length then Except.error "Text input cannot exceed 5000 characters"
      else Except.ok d

/-- The keys of the `type_mapping` dictionary of `validate_message`. -/
def knownMessageTypes : List String :=
  ["user_input", "director_message", "agent_message", "frontend_action",
   "system", "connection"]

/-- `validate_message`: reject unknown types with a `ValueError`, then
construct the pydantic model of the mapped type — for `user_input` this
requires `session_id` and `data` and runs `validate_data_structure`; for
`frontend_action` it requires `session_id` and `action`; for `connection`
it requires `status`. The remaining mapped types (`director_message`,
`agent_message`, `system`) are server-to-client shapes that the dispatcher
only ever rejects, and are kept abstract. -/
def validateMessage (raw : RawMessage) : Except String ParsedMessage :=
  match raw.msgType with
  | none => Except.error "Unknown message type: None"
  | some t =>
      if !(knownMessageTypes.contains t) then
        Except.error ("Unknown message type: " ++ t)
      else if t = "user_input" then
        match raw.sessionId, raw.data with
        | some sid, some d => (validateDataStructure d).map (ParsedMessage.userInput sid)
        | _, _ => Except.error "field required"
      else if t = "frontend_action" then
        match raw.sessionId, raw.action with
        | some sid, some a => Except.ok (ParsedMessage.frontendAction sid a)
        | _, _ => Except.error "field required"
      else if t = "connection" then
        match raw.connStatus with
        | some st => Except.ok (ParsedMessage.connectionControl st)
        | none => Except.error "field required"
      else
        Except.ok (ParsedMessage.otherType t)

/-- The per-connection handler state: its session and the optional
workflow state owned by the connection (`WebSocketHandler.__init__` /
`initialize`). -/
structure HandlerState where
  sessionId : String
  initialized : Bool := true
  workflowState : Option WorkflowState := none
  deriving DecidableEq

/-- Modelled from the spec: `src/utils/validators.py` is absent from the
source tree (only its callers are present). Per §4.5 the orchestrator
validates structural shape and otherwise passes ordinary text through;
`validate_text_input` therefore returns its argument unchanged for the
conversational inputs the claims use. -/
def validateTextInput (text : String) : Except String String := Except.ok text

/-- Modelled from the spec: `src/utils/validators.py` is absent from the
source tree. The prompt-injection check treats plain conversational text
as safe (§8 requires `hi` to reach the greeting path), so it accepts. -/
def validatePromptInjection (_text : String) : Bool := true

/-- One `astream` round of `MockWorkflow`: run the `analyze` node on the
Director result, or convert a raised exception through the error branch.
The Director call outcome is the `outcome` argument. -/
def mockWorkflowAstream (s : WorkflowState)
    (outcome : Except PyError DirectorInboundOutput) : WorkflowState :=
  match outcome with
  | Except.ok r => analyzeRequestNode s r
  | Except.error e => mockWorkflowErrorUpdate s e

/-- `WorkflowRunner.start_generation` through the `MockWorkflow` path:
one `astream` round from the fresh initial state. -/
def startGeneration (outcome : Except PyError DirectorInboundOutput) : WorkflowState :=
  mockWorkflowAstream initialWorkflowState outcome

/-- `WebSocketHandler._handle_workflow_state`: render the current phase
as outbound messages (greeting and generation send informational chat,
clarification sends the latest round as a question, completed sends the
presentation or an error; other phases send nothing). -/
def handleWorkflowStateMessages (ws : Option WorkflowState) : List OutMessage :=
  match ws with
  | none => []
  | some s =>
      if s.currentPhase = "greeting" then [OutMessage.chatMsg "director_inbound" "info"]
      else if s.currentPhase = "clarification" then
        if !(s.clarificationRounds.isEmpty) then
          [OutMessage.chatMsg "director_inbound" "question"]
        else []
      else if s.currentPhase = "generation" then
        [OutMessage.chatMsg "director_inbound" "info"]
      else if s.currentPhase = "completed" then
        match s.finalPresentation with
        | some p => [OutMessage.slideMsg "director_outbound" p.slides.length]
        | none => [OutMessage.systemMsg "error" "ERROR" "Presentation generation failed"]
      else []

/-- `WebSocketHandler._start_presentation_generation`: send the analysis
acknowledgment, run the workflow, keep the resulting state, and render
it. -/
def startPresentationGeneration (h : HandlerState)
    (outcome : Except PyError DirectorInboundOutput) : HandlerState × List OutMessage :=
  let ack := OutMessage.chatMsg "director_inbound" "info"
  let ws := startGeneration outcome
  ({ h with workflowState := some ws },
   ack :: handleWorkflowStateMessages (some ws))

/-- `WebSocketHandler._handle_clarification_response`: without an active
workflow, reply `NO_WORKFLOW`; otherwise continue the workflow with the
response and render the updated state. -/
def handleClarificationResponseMsg (h : HandlerState)
    (outcome : Except PyError DirectorInboundOutput) : HandlerState × List OutMessage :=
  match h.workflowState with
  | none => (h, [OutMessage.systemMsg "error" "NO_WORKFLOW" "No active workflow"])
  | some ws =>
      let ws2 := mockWorkflowAstream ws outcome
      ({ h with workflowState := some ws2 }, handleWorkflowStateMessages (some ws2))

/-- `WebSocketHandler._handle_test_message`: every test command replies
with director chat messages and leaves the handler state untouched (the
individual debug payloads are carried by no claim). -/
def handleTestMessage (h : HandlerState) (_text : String) : HandlerState × List OutMessage :=
  (h, [OutMessage.chatMsg "director_inbound" "info"])

/-- The greeting fast-path list of `_handle_user_input`. -/
def greetingWords : List String := ["hi", "hello", "hey"]

/-- `WebSocketHandler._handle_user_input`, in source order: security
validation (a `ValueError` becomes a `VALIDATION_ERROR` system message,
injection becomes `UNSAFE_INPUT`), the direct greeting fast path for
`hi`/`hello`/`hey` (lowercased, stripped), test commands, clarification
responses (`response_to` present), and otherwise a new generation
request. -/
def handleUserInput (h : HandlerState) (d : MessageData)
    (outcome : Except PyError DirectorInboundOutput) : HandlerState × List OutMessage :=
  let text := d.text.getD ""
  match validateTextInput text with
  | Except.error e => (h, [OutMessage.systemMsg "error" "VALIDATION_ERROR" e])
  | Except.ok validated =>
      if !(validatePromptInjection validated) then
        (h, [OutMessage.systemMsg "error" "UNSAFE_INPUT"
              "Input contains potentially unsafe content"])
      else if greetingWords.contains (pyStrip (pyLower text)) then
        (h, [OutMessage.chatMsg "director_inbound" "info"])
      else if startsWithStr (pyLower text) "test:" then
        handleTestMessage h text
      else if d.responseTo.isSome then
        handleClarificationResponseMsg h outcome
      else
        startPresentationGeneration h outcome

/-- `WebSocketHandler._handle_frontend_action`: `save_draft` requires a
structure, every other action replies with an informational chat
message. -/
def handleFrontendAction (h : HandlerState) (a : String) : HandlerState × List OutMessage :=
  if a = "save_draft" then
    match h.workflowState with
    | some ws =>
        if ws.presentationStructure.isSome then
          (h, [OutMessage.chatMsg "director_inbound" "info"])
        else (h, [OutMessage.systemMsg "error" "ERROR" "No presentation to save"])
    | none => (h, [OutMessage.systemMsg "error" "ERROR" "No presentation to save"])
  else (h, [OutMessage.chatMsg "director_inbound" "info"])

/-- `WebSocketHandler._process_message`: refuse before initialization;
validate the raw message, reporting a `ValueError` as a `system` error
message; then dispatch on the message type, rejecting validated types the
dispatcher does not route. -/
def processMessage (h : HandlerState) (raw : RawMessage)
    (outcome : Except PyError DirectorInboundOutput) : HandlerState × List OutMessage :=
  if !h.initialized then
    (h, [OutMessage.systemMsg "error" "NOT_READY" "Connection not fully initialized"])
  else
    match validateMessage raw with
    | Except.error e =>
        (h, [OutMessage.systemMsg "error" "ERROR" ("Invalid message: " ++ e)])
    | Except.ok (ParsedMessage.userInput _ d) => handleUserInput h d outcome
    | Except.ok (ParsedMessage.frontendAction _ a) => handleFrontendAction h a
    | Except.ok (ParsedMessage.connectionControl st) =>
        if st = "ping" then (h, [OutMessage.connMsg "pong"]) else (h, [])
    | Except.ok (ParsedMessage.otherType t) =>
        (h, [OutMessage.systemMsg "error" "ERROR" ("Unknown message type: " ++ t)])

/-! ## Concrete fixtures for witnesses and counterexamples -/

/-- An analyzer result stuck at completeness 0.1 (below every threshold
used by the configurations). -/
def stuckAnalysis : RequirementAnalysis where
  completenessScore := mkRat 1 10
  missingInformation := ["target audience", "presentation duration"]
  detectedIntent := "presentation"
  presentationType := "general"
  estimatedSlides := 10
  complexityLevel := "moderate"
  keyTopics := ["AI"]
  suggestedFlow := ["Introduction", "Content", "Conclusion"]

/-- An analyzer result at completeness 0.9 (above the default 0.8). -/
def richAnalysis : RequirementAnalysis where
  completenessScore := mkRat 9 10
  missingInformation := []
  detectedIntent := "presentation"
  presentationType := "investor pitch"
  estimatedSlides := 10
  complexityLevel := "moderate"
  keyTopics := ["renewable energy"]
  suggestedFlow := ["Introduction", "Content", "Conclusion"]

/-- The configuration of the round-exhaustion property:
`max_clarification_rounds = 2`. -/
def twoRoundConfig : DirectorInboundConfig := { maxClarificationRounds := 2 }

/-- The Director output of `analyze_request` on the rich analysis. -/
def richOutput : DirectorInboundOutput := analyzeUserRequest defaultConfig richAnalysis

/-- The state at the assembly node after the generation path of the graph
on the rich analysis. -/
def witnessAssemblyState : WorkflowState :=
  runParallelAgents (createStructureNode (analyzeRequestNode initialWorkflowState richOutput)
    richOutput)

/-- An initialized handler without a workflow. -/
def demoHandler : HandlerState := { sessionId := "session_demo" }

/-- The inbound message `{type: "user_input", data: {text: "hi"}}`. -/
def hiMessage : RawMessage where
  msgType := some "user_input"
  sessionId := some "session_demo"
  data := some { text := some "hi" }

/-- The inbound message `{type: "bogus"}`. -/
def bogusMessage : RawMessage := { msgType := some "bogus" }

/-- The Director-call outcome with the LLM capability unavailable: the
mock string response fails to parse and yields the fallback analysis. -/
def llmFailOutcome : Except PyError DirectorInboundOutput :=
  Except.ok (analyzeUserRequest defaultConfig
    (parseAnalysisResponse (fun _ => none) (mockLLMResponse "Create a presentation about AI")))

/-- A two-outline structure with valid titles and layouts. -/
def demoStructure : PresentationStructure where
  title := some "Renewable Energy"
  slideOutlines :=
    [{ title := some "Overview", layoutTypeField := some "hero" },
     { title := some "Details", layoutTypeField := some "content" }]

/-- A workflow state about to assemble `demoStructure` with zero agent
outputs present. -/
def demoAssemblyState : WorkflowState :=
  { initialWorkflowState with currentPhase := "assembly"
                              presentationStructure := some demoStructure }

/-- The inductive invariant for the fan-out/fan-in barrier: whenever the
state is in phase `assembly` the agent sets agree, and the `assemble`
node only runs on states in phase `assembly`. -/
def BarrierInv (c : GraphNode × WorkflowState) : Prop :=
  (c.2.currentPhase = "assembly" → c.2.activeAgents = c.2.completedAgents) ∧
  (c.1 = GraphNode.assemble → c.2.currentPhase = "assembly")

/-! ## Helper lemmas -/

lemma analyzeRequestNode_phase (s : WorkflowState) (r : DirectorInboundOutput) :
    (analyzeRequestNode s r).currentPhase = "greeting" ∨
    (analyzeRequestNode s r).currentPhase = "clarification" ∨
    (analyzeRequestNode s r).currentPhase = "generation" := by
  unfold analyzeRequestNode
  split
  · exact Or.inl rfl
  · split
    · split
      · exact Or.inr (Or.inl rfl)
      · exact Or.inr (Or.inl rfl)
    · exact Or.inr (Or.inr rfl)

lemma analyzeRequestNode_agents (s : WorkflowState) (r : DirectorInboundOutput) :
    ((analyzeRequestNode s r).activeAgents = s.activeAgents ∧
      (analyzeRequestNode s r).completedAgents = s.completedAgents) ∨
    (analyzeRequestNode s r).currentPhase = "generation" := by
  unfold analyzeRequestNode
  split
  · exact Or.inl ⟨rfl, rfl⟩
  · split
    · split
      · exact Or.inl ⟨rfl, rfl⟩
      · exact Or.inl ⟨rfl, rfl⟩
    · exact Or.inr rfl

lemma mockWorkflowErrorUpdate_phase (s : WorkflowState) (e : PyError) :
    (mockWorkflowErrorUpdate s e).currentPhase = "error_recovery" ∨
    (mockWorkflowErrorUpdate s e).currentPhase = "error" := by
  by_cases hc : s.errorCount + 1 < maxRetries ∧ isRecoverableError e = true
  · exact Or.inl (by simp [mockWorkflowErrorUpdate, hc])
  · exact Or.inr (by simp [mockWorkflowErrorUpdate, hc])

lemma mockWorkflowErrorUpdate_agents (s : WorkflowState) (e : PyError) :
    (mockWorkflowErrorUpdate s e).activeAgents = s.activeAgents ∧
    (mockWorkflowErrorUpdate s e).completedAgents = s.completedAgents := by
  by_cases hc : s.errorCount + 1 < maxRetries ∧ isRecoverableError e = true
  · constructor <;> simp [mockWorkflowErrorUpdate, hc]
  · constructor <;> simp [mockWorkflowErrorUpdate, hc]

lemma assemblePresentation_ok_phase {s s2 : WorkflowState}
    (h : assemblePresentation s = Except.ok s2) : s2.currentPhase = "completed" := by
  simp only [assemblePresentation] at h
  split at h
  · cases h
    rfl
  · cases h

lemma barrierInv_step {c c2 : GraphNode × WorkflowState}
    (hInv : BarrierInv c) (hs : GraphStep c c2) : BarrierInv c2 := by
  cases hs with
  | analyzeStep s r =>
      constructor
      · intro hp
        rcases analyzeRequestNode_agents s r with ⟨ha, hc⟩ | hgen
        · rcases analyzeRequestNode_phase s r with h | h | h <;> rw [h] at hp <;> simp at hp
        · rw [hgen] at hp
          simp at hp
      · intro hn
        unfold nodeAfterAnalyze at hn
        split at hn <;> simp at hn
  | analyzeFailure s e =>
      constructor
      · intro hp
        rcases mockWorkflowErrorUpdate_phase s e with h | h <;> rw [h] at hp <;> simp at hp
      · intro hn
        simp at hn
  | clarifyStep s =>
      constructor
      · intro hp
        simp [generateClarificationsNode] at hp
      · intro hn
        simp at hn
  | processResponseStep s r =>
      constructor
      · unfold processClarificationResponseNode
        split
        · intro hp
          exact hInv.1 hp
        · intro hp
          simp at hp
      · intro hn
        simp at hn
  | structureStep s r =>
      constructor
      · unfold createStructureNode
        split
        · exact hInv.1
        · intro hp
          simp at hp
      · intro hn
        simp at hn
  | generateStep s =>
      exact ⟨fun _ => rfl, fun _ => rfl⟩
  | assembleStep s s2 h =>
      constructor
      · intro hp
        rw [assemblePresentation_ok_phase h] at hp
        simp at hp
      · intro hn
        simp at hn
  | restartStep s =>
      constructor
      · exact hInv.1
      · intro hn
        simp at hn

lemma barrierInv_reachable {c : GraphNode × WorkflowState}
    (h : GraphReachable c) : BarrierInv c := by
  induction h with
  | init =>
      constructor
      · intro hp
        simp [initialWorkflowState] at hp
      · intro hn
        simp at hn
  | step _ hs ih => exact barrierInv_step ih hs

lemma witnessAssemblyReachable : GraphReachable (GraphNode.assemble, witnessAssemblyState) := by
  have h1 : GraphReachable
      (GraphNode.buildStructure, analyzeRequestNode initialWorkflowState richOutput) :=
    GraphReachable.step GraphReachable.init
      (GraphStep.analyzeStep initialWorkflowState richOutput)
  have h2 := GraphReachable.step h1
    (GraphStep.structureStep (analyzeRequestNode initialWorkflowState richOutput) richOutput)
  exact GraphReachable.step h2
    (GraphStep.generateStep
      (createStructureNode (analyzeRequestNode initialWorkflowState richOutput) richOutput))

/-! ## Claim theorems -/

/-- C1: no reachable configuration of the workflow graph is in phase
`assembly` — nor executes the `assemble` node — while the set of active
agents differs from the set of completed agents; `run_parallel_agents`
establishes the invariant by setting `completed_agents` to
`active_agents` in the same update that moves the phase to `assembly`;
and `all_agents_complete` answers `assemble` exactly when the active
agents are a subset of the completed agents. -/
theorem workflow_assembly_barrier :
    (∀ c : GraphNode × WorkflowState, GraphReachable c →
      (c.2.currentPhase = "assembly" →
        ∀ a : String, a ∈ c.2.activeAgents ↔ a ∈ c.2.completedAgents) ∧
      (c.1 = GraphNode.assemble →
        ∀ a : String, a ∈ c.2.activeAgents ↔ a ∈ c.2.completedAgents)) ∧
    (∀ s : WorkflowState,
      (runParallelAgents s).completedAgents = s.activeAgents ∧
      (runParallelAgents s).activeAgents = s.activeAgents ∧
      (runParallelAgents s).currentPhase = "assembly") ∧
    (∀ s : WorkflowState,
      allAgentsComplete s = "assemble" ↔ ∀ a ∈ s.activeAgents, a ∈ s.completedAgents) := by
  refine ⟨?_, fun s => ⟨rfl, rfl, rfl⟩, ?_⟩
  · intro c hc
    have hinv := barrierInv_reachable hc
    refine ⟨fun hp a => by rw [hinv.1 hp], fun hn a => by rw [hinv.1 (hinv.2 hn)]⟩
  · intro s
    have hiff : (s.activeAgents.all (fun a => decide (a ∈ s.completedAgents)) = true) ↔
        ∀ a ∈ s.activeAgents, a ∈ s.completedAgents := by
      rw [List.all_eq_true]
      simp only [decide_eq_true_eq]
    unfold allAgentsComplete
    split
    · next hcond => exact ⟨fun _ => hiff.mp hcond, fun _ => rfl⟩
    · next hcond =>
        constructor
        · intro hw
          simp at hw
        · intro hall
          exact absurd (hiff.mpr hall) hcond

/-- Witness for C1 at the concrete generation run on a complete request:
the `assemble` node is reached, and there the agent sets agree. -/
theorem workflow_assembly_barrier_witness :
    GraphReachable (GraphNode.assemble, witnessAssemblyState) ∧
    ("ux_architect" ∈ witnessAssemblyState.activeAgents ↔
      "ux_architect" ∈ witnessAssemblyState.completedAgents) ∧
    allAgentsComplete witnessAssemblyState = "assemble" := by
  refine ⟨witnessAssemblyReachable, ?_, ?_⟩
  · exact (workflow_assembly_barrier.1 _ witnessAssemblyReachable).2 rfl "ux_architect"
  · exact (workflow_assembly_barrier.2.2 witnessAssemblyState).mpr (by decide)

lemma mockWorkflowErrorUpdate_phase_iff (s : WorkflowState) (e : PyError) :
    ((mockWorkflowErrorUpdate s e).currentPhase = "error_recovery" ↔
      (isRecoverableError e = true ∧ s.errorCount + 1 < maxRetries)) ∧
    ((mockWorkflowErrorUpdate s e).currentPhase = "error" ↔
      ¬(isRecoverableError e = true ∧ s.errorCount + 1 < maxRetries)) := by
  by_cases hc : s.errorCount + 1 < maxRetries ∧ isRecoverableError e = true
  · have hph : (mockWorkflowErrorUpdate s e).currentPhase = "error_recovery" := by
      simp [mockWorkflowErrorUpdate, hc]
    rw [hph]
    constructor
    · exact ⟨fun _ => ⟨hc.2, hc.1⟩, fun _ => rfl⟩
    · constructor
      · intro hfalse
        exact absurd hfalse (by decide)
      · intro hn
        exact absurd ⟨hc.2, hc.1⟩ hn
  · have hph : (mockWorkflowErrorUpdate s e).currentPhase = "error" := by
      simp [mockWorkflowErrorUpdate, hc]
    rw [hph]
    constructor
    · constructor
      · intro hfalse
        exact absurd hfalse (by decide)
      · intro hcond
        exact absurd ⟨hcond.2, hcond.1⟩ hc
    · exact ⟨fun _ hcond => hc ⟨hcond.2, hcond.1⟩, fun _ => rfl⟩

lemma isRecoverableError_rls (t m : String)
    (h : strContains (pyLower m) "row-level security policy" = true) :
    isRecoverableError { typeName := t, message := m } = true := by
  simp [isRecoverableError, h]

lemma isRecoverableError_validation (m : String) :
    isRecoverableError { typeName := "ValidationError", message := m } = true := by
  cases hb : strContains (pyLower m) "row-level security policy" <;>
    simp [isRecoverableError, hb] <;> decide

lemma isRecoverableError_network (m : String) :
    isRecoverableError { typeName := "TimeoutError", message := m } = true ∧
    isRecoverableError { typeName := "ConnectionError", message := m } = true := by
  constructor <;> (cases hb : strContains (pyLower m) "row-level security policy" <;>
    simp [isRecoverableError, hb] <;> decide)

lemma isRecoverableError_import (m : String)
    (h : strContains (pyLower m) "row-level security policy" = false) :
    isRecoverableError { typeName := "ImportError", message := m } = false ∧
    isRecoverableError { typeName := "ModuleNotFoundError", message := m } = false := by
  constructor <;> simp [isRecoverableError, h] <;> decide

/-- C2: a caught workflow exception moves the state to `error_recovery`
exactly when the error is classified recoverable and the incremented
error count is below the retry cap of 3, and to `error` otherwise; the
classification treats row-level-security rejections, validation errors
and network/timeout errors as recoverable, and import-style failures
(`ImportError`, `ModuleNotFoundError`) as non-recoverable. -/
theorem error_classification_and_recovery :
    (∀ (s : WorkflowState) (e : PyError),
      ((mockWorkflowErrorUpdate s e).currentPhase = "error_recovery" ↔
        (isRecoverableError e = true ∧ s.errorCount + 1 < maxRetries)) ∧
      ((mockWorkflowErrorUpdate s e).currentPhase = "error" ↔
        ¬(isRecoverableError e = true ∧ s.errorCount + 1 < maxRetries))) ∧
    maxRetries = 3 ∧
    (∀ t m : String, strContains (pyLower m) "row-level security policy" = true →
      isRecoverableError { typeName := t, message := m } = true) ∧
    (∀ m : String, isRecoverableError { typeName := "ValidationError", message := m } = true) ∧
    (∀ m : String,
      isRecoverableError { typeName := "TimeoutError", message := m } = true ∧
      isRecoverableError { typeName := "ConnectionError", message := m } = true) ∧
    (∀ m : String, strContains (pyLower m) "row-level security policy" = false →
      isRecoverableError { typeName := "ImportError", message := m } = false ∧
      isRecoverableError { typeName := "ModuleNotFoundError", message := m } = false) :=
  ⟨mockWorkflowErrorUpdate_phase_iff, rfl, isRecoverableError_rls,
   isRecoverableError_validation, isRecoverableError_network, isRecoverableError_import⟩

/-- Witness for C2 at concrete errors: a first timeout is recoverable and
enters `error_recovery`; a missing-module import failure is
non-recoverable and enters `error`. -/
theorem error_classification_and_recovery_witness :
    (mockWorkflowErrorUpdate initialWorkflowState
        { typeName := "TimeoutError", message := "request timed out" }).currentPhase =
      "error_recovery" ∧
    isRecoverableError { typeName := "ImportError", message := "No module named langgraph" } =
      false ∧
    (mockWorkflowErrorUpdate initialWorkflowState
        { typeName := "ImportError", message := "No module named langgraph" }).currentPhase =
      "error" := by
  refine ⟨?_, ?_, ?_⟩
  · exact (error_classification_and_recovery.1 initialWorkflowState
      { typeName := "TimeoutError", message := "request timed out" }).1.mpr
      ⟨by decide, by decide⟩
  · exact (error_classification_and_recovery.2.2.2.2.2 "No module named langgraph"
      (by decide)).1
  · exact (error_classification_and_recovery.1 initialWorkflowState
      { typeName := "ImportError", message := "No module named langgraph" }).2.mpr
      (by decide)

lemma analyzeUserRequest_low {cfg : DirectorInboundConfig} {a : RequirementAnalysis}
    (h : a.completenessScore < cfg.minCompletenessScore) :
    analyzeUserRequest cfg a =
      { outputType := "clarification", analysis := some a, nextAgents := [] } := by
  unfold analyzeUserRequest
  rw [if_pos h]

lemma analyzeUserRequest_high {cfg : DirectorInboundConfig} {a : RequirementAnalysis}
    (h : cfg.minCompletenessScore ≤ a.completenessScore) :
    analyzeUserRequest cfg a =
      { outputType := "structure", analysis := some a
        nextAgents := ["ux_architect", "researcher"] } := by
  unfold analyzeUserRequest
  rw [if_neg (not_lt.mpr h)]

lemma analyzeRequest_branch (cfg : DirectorInboundConfig) (s : WorkflowState)
    (a : RequirementAnalysis) :
    (a.completenessScore < cfg.minCompletenessScore →
      (analyzeRequestNode s (analyzeUserRequest cfg a)).currentPhase = "clarification" ∧
      (analyzeRequestNode s (analyzeUserRequest cfg a)).needsClarification = true ∧
      (analyzeRequestNode s (analyzeUserRequest cfg a)).clarificationRounds =
        s.clarificationRounds) ∧
    (cfg.minCompletenessScore ≤ a.completenessScore →
      (analyzeRequestNode s (analyzeUserRequest cfg a)).currentPhase = "generation" ∧
      (analyzeRequestNode s (analyzeUserRequest cfg a)).needsClarification = false ∧
      (analyzeRequestNode s (analyzeUserRequest cfg a)).activeAgents =
        ["ux_architect", "researcher"] ∧
      (analyzeRequestNode s (analyzeUserRequest cfg a)).presentationStructure = none) := by
  constructor
  · intro hlt
    rw [analyzeUserRequest_low hlt]
    exact ⟨rfl, rfl, rfl⟩
  · intro hle
    rw [analyzeUserRequest_high hle]
    exact ⟨rfl, rfl, rfl, rfl⟩

/-- Counterexample for C3: on an analysis with completeness 0.9 (above the
0.8 threshold) the analysis step does move the phase to `generation` and
set the active agents, but the state holds no presentation structure —
`presentation_structure` is assigned the director result's
`initial_structure`, which the `analyze_request` action leaves `None`. -/
theorem analysis_high_score_no_structure_counterexample :
    mkRat 4 5 ≤ richAnalysis.completenessScore ∧
    (analyzeRequestNode initialWorkflowState richOutput).currentPhase = "generation" ∧
    (analyzeRequestNode initialWorkflowState richOutput).activeAgents =
      ["ux_architect", "researcher"] ∧
    (analyzeRequestNode initialWorkflowState richOutput).presentationStructure = none :=
  ⟨by decide, rfl, rfl, rfl⟩

/-- C3 (amended): the analysis step branches only on the returned score —
strictly below `min_completeness_score` it yields phase `clarification`
with `needs_clarification` set, at or above it yields phase `generation`
with the active agents set to `ux_architect` and `researcher`; the
`presentation_structure` field is assigned the director result's
`initial_structure`, which the analysis action leaves `None` (the
structure is produced later by the `structure` step). -/
theorem analysis_branch_on_completeness :
    ∀ (cfg : DirectorInboundConfig) (s : WorkflowState) (a : RequirementAnalysis),
      (a.completenessScore < cfg.minCompletenessScore →
        (analyzeRequestNode s (analyzeUserRequest cfg a)).currentPhase = "clarification" ∧
        (analyzeRequestNode s (analyzeUserRequest cfg a)).needsClarification = true) ∧
      (cfg.minCompletenessScore ≤ a.completenessScore →
        (analyzeRequestNode s (analyzeUserRequest cfg a)).currentPhase = "generation" ∧
        (analyzeRequestNode s (analyzeUserRequest cfg a)).needsClarification = false ∧
        (analyzeRequestNode s (analyzeUserRequest cfg a)).activeAgents =
          ["ux_architect", "researcher"] ∧
        (analyzeRequestNode s (analyzeUserRequest cfg a)).presentationStructure = none) := by
  intro cfg s a
  have h := analyzeRequest_branch cfg s a
  exact ⟨fun hlt => ⟨(h.1 hlt).1, (h.1 hlt).2.1⟩, h.2⟩

/-- Witness for C3 at both branches: the stuck analysis (0.1) yields
clarification, the rich analysis (0.9) yields generation. -/
theorem analysis_branch_on_completeness_witness :
    (analyzeRequestNode initialWorkflowState
      (analyzeUserRequest defaultConfig stuckAnalysis)).currentPhase = "clarification" ∧
    (analyzeRequestNode initialWorkflowState
      (analyzeUserRequest defaultConfig richAnalysis)).currentPhase = "generation" := by
  constructor
  · exact ((analysis_branch_on_completeness defaultConfig initialWorkflowState
      stuckAnalysis).1 (by decide)).1
  · exact ((analysis_branch_on_completeness defaultConfig initialWorkflowState
      richAnalysis).2 (by decide)).1

/-- C5: when the LLM response cannot be parsed (in particular when the
capability is unavailable and only the mock string is returned), the
analyzer returns the fixed fallback with completeness 0.5 instead of
raising, and a full generation request therefore reaches phase
`clarification` — one of `clarification`/`generation` — within one
analysis step and never phase `error`. -/
theorem analyzer_fallback_never_fails :
    ∀ (jsonParse : String → Option RequirementAnalysis) (response : String)
      (s : WorkflowState),
      jsonParse response = none →
      parseAnalysisResponse jsonParse response = fallbackAnalysis ∧
      fallbackAnalysis.completenessScore = mkRat 1 2 ∧
      (analyzeRequestNode s (analyzeUserRequest defaultConfig
        (parseAnalysisResponse jsonParse response))).currentPhase = "clarification" ∧
      ((analyzeRequestNode s (analyzeUserRequest defaultConfig
          (parseAnalysisResponse jsonParse response))).currentPhase = "clarification" ∨
        (analyzeRequestNode s (analyzeUserRequest defaultConfig
          (parseAnalysisResponse jsonParse response))).currentPhase = "generation") ∧
      ¬(analyzeRequestNode s (analyzeUserRequest defaultConfig
          (parseAnalysisResponse jsonParse response))).currentPhase = "error" := by
  intro jsonParse response s h
  have hp : parseAnalysisResponse jsonParse response = fallbackAnalysis := by
    unfold parseAnalysisResponse
    rw [h]
  rw [hp]
  have hbr := (analyzeRequest_branch defaultConfig s fallbackAnalysis).1 (by decide)
  refine ⟨rfl, rfl, hbr.1, Or.inl hbr.1, ?_⟩
  rw [hbr.1]
  decide

/-- Witness for C5 at the concrete failed-LLM run: the mock response to a
full request is unparseable, and the resulting phase is `clarification`,
not `error`. -/
theorem analyzer_fallback_never_fails_witness :
    parseAnalysisResponse (fun _ => none)
        (mockLLMResponse "Create a presentation about AI") = fallbackAnalysis ∧
    (startGeneration llmFailOutcome).currentPhase = "clarification" ∧
    ¬(startGeneration llmFailOutcome).currentPhase = "error" := by
  have h := analyzer_fallback_never_fails (fun _ => none)
    (mockLLMResponse "Create a presentation about AI") initialWorkflowState rfl
  exact ⟨h.1, h.2.2.1, h.2.2.2.2⟩

lemma lookupKey_append (l1 l2 : Requirements) (key : String) :
    lookupKey (l1 ++ l2) key =
      match lookupKey l1 key with
      | some v => some v
      | none => lookupKey l2 key := by
  induction l1 with
  | nil => rfl
  | cons hd tl ih =>
      obtain ⟨k, v⟩ := hd
      by_cases hk : k = key
      · simp [lookupKey, hk]
      · simp only [List.cons_append, lookupKey, if_neg hk]
        exact ih

lemma lookupKey_insertIfMissing_preserved (reqs : Requirements) (k2 key : String)
    (v : ReqValue) (h : (lookupKey reqs key).isSome = true) :
    lookupKey (insertIfMissing reqs k2 v) key = lookupKey reqs key := by
  unfold insertIfMissing
  split
  · rfl
  · rw [lookupKey_append]
    obtain ⟨w, hw⟩ := Option.isSome_iff_exists.mp h
    rw [hw]

lemma lookupKey_insertIfMissing_isSome (reqs : Requirements) (k2 key : String)
    (v : ReqValue) (h : (lookupKey reqs key).isSome = true) :
    (lookupKey (insertIfMissing reqs k2 v) key).isSome = true := by
  rw [lookupKey_insertIfMissing_preserved reqs k2 key v h]
  exact h

lemma lookupKey_insertIfMissing_self (reqs : Requirements) (k : String) (v : ReqValue) :
    (lookupKey (insertIfMissing reqs k v) k).isSome = true := by
  unfold insertIfMissing
  split
  · next hk => exact hk
  · next hk =>
      rw [lookupKey_append]
      have hnone : lookupKey reqs k = none := by
        cases hopt : lookupKey reqs k
        · rfl
        · rw [hopt] at hk
          simp at hk
      rw [hnone]
      simp [lookupKey]

lemma fillDefaults_eq (reqs : Requirements) (n : Nat) :
    fillDefaults reqs n =
      insertIfMissing
        (insertIfMissing
          (insertIfMissing
            (insertIfMissing reqs "target_audience" (ReqValue.str "general business audience"))
            "duration" (ReqValue.str "15-20 minutes"))
          "style" (ReqValue.str "professional"))
        "slides" (ReqValue.nat n) := rfl

lemma fillDefaults_keys (reqs : Requirements) (n : Nat) :
    (lookupKey (fillDefaults reqs n) "target_audience").isSome = true ∧
    (lookupKey (fillDefaults reqs n) "duration").isSome = true ∧
    (lookupKey (fillDefaults reqs n) "style").isSome = true ∧
    (lookupKey (fillDefaults reqs n) "slides").isSome = true := by
  rw [fillDefaults_eq]
  refine ⟨?_, ?_, ?_, ?_⟩
  · exact lookupKey_insertIfMissing_isSome _ _ _ _
      (lookupKey_insertIfMissing_isSome _ _ _ _
        (lookupKey_insertIfMissing_isSome _ _ _ _
          (lookupKey_insertIfMissing_self _ _ _)))
  · exact lookupKey_insertIfMissing_isSome _ _ _ _
      (lookupKey_insertIfMissing_isSome _ _ _ _
        (lookupKey_insertIfMissing_self _ _ _))
  · exact lookupKey_insertIfMissing_isSome _ _ _ _
      (lookupKey_insertIfMissing_self _ _ _)
  · exact lookupKey_insertIfMissing_self _ _ _

lemma fillDefaults_preserves (reqs : Requirements) (n : Nat) (k : String)
    (h : (lookupKey reqs k).isSome = true) :
    lookupKey (fillDefaults reqs n) k = lookupKey reqs k := by
  rw [fillDefaults_eq]
  have h1 := lookupKey_insertIfMissing_preserved reqs "target_audience" k
    (ReqValue.str "general business audience") h
  have h1s : (lookupKey (insertIfMissing reqs "target_audience"
      (ReqValue.str "general business audience")) k).isSome = true := by rw [h1]; exact h
  have h2 := lookupKey_insertIfMissing_preserved _ "duration" k
    (ReqValue.str "15-20 minutes") h1s
  have h2s : (lookupKey (insertIfMissing (insertIfMissing reqs "target_audience"
      (ReqValue.str "general business audience")) "duration"
      (ReqValue.str "15-20 minutes")) k).isSome = true := by rw [h2]; exact h1s
  have h3 := lookupKey_insertIfMissing_preserved _ "style" k
    (ReqValue.str "professional") h2s
  have h3s : (lookupKey (insertIfMissing (insertIfMissing (insertIfMissing reqs
      "target_audience" (ReqValue.str "general business audience")) "duration"
      (ReqValue.str "15-20 minutes")) "style"
      (ReqValue.str "professional")) k).isSome = true := by rw [h3]; exact h2s
  have h4 := lookupKey_insertIfMissing_preserved _ "slides" k (ReqValue.nat n) h3s
  rw [h4, h3, h2, h1]

/-- C4: evaluation at the failing input of the round-exhaustion property
(cap 2, analyzer stuck at completeness 0.1): the Director raises the
pydantic `ValidationError` inside `_generate_clarifications` — the
`messages.ClarificationRound` construction from
`agents.ClarificationQuestion` instances fails before the
`clarification_history` append — instead of issuing a round, so the round
counter never accrues and the over-cap refusal that would force
structure-building with default-filled requirements is unreachable; and
every clarification response re-enters the `analyze` node, which keeps
the workflow in phase `clarification`, never `generation`. -/
theorem round_exhaustion_not_enforced :
    generateClarifications twoRoundConfig [] stuckAnalysis [] =
      Except.error pydanticQuestionError ∧
    processClarificationResponseAgent twoRoundConfig [] stuckAnalysis [] =
      Except.error pydanticQuestionError ∧
    (∀ s : WorkflowState,
      (analyzeRequestNode s (analyzeUserRequest twoRoundConfig stuckAnalysis)).currentPhase =
        "clarification") := by
  refine ⟨rfl, rfl, ?_⟩
  intro s
  exact ((analyzeRequest_branch twoRoundConfig s stuckAnalysis).1 (by decide)).1

lemma analyzeUserRequest_no_questions (cfg : DirectorInboundConfig)
    (a : RequirementAnalysis) :
    (analyzeUserRequest cfg a).clarificationQuestions = none := by
  unfold analyzeUserRequest
  split
  · rfl
  · rfl

lemma analyzeRequestNode_rounds_of_none (s : WorkflowState) (r : DirectorInboundOutput)
    (h : r.clarificationQuestions = none) :
    (analyzeRequestNode s r).clarificationRounds = s.clarificationRounds := by
  unfold analyzeRequestNode
  rw [h]
  split
  · rfl
  · split
    · rfl
    · rfl

lemma createStructureNode_rounds (s : WorkflowState) (r : DirectorInboundOutput) :
    (createStructureNode s r).clarificationRounds = s.clarificationRounds := by
  unfold createStructureNode
  split
  · rfl
  · rfl

lemma mockWorkflowErrorUpdate_rounds (s : WorkflowState) (e : PyError) :
    (mockWorkflowErrorUpdate s e).clarificationRounds = s.clarificationRounds := by
  by_cases hc : s.errorCount + 1 < maxRetries ∧ isRecoverableError e = true
  · simp [mockWorkflowErrorUpdate, hc]
  · simp [mockWorkflowErrorUpdate, hc]

lemma assemblePresentation_ok_rounds {s s2 : WorkflowState}
    (h : assemblePresentation s = Except.ok s2) :
    s2.clarificationRounds = s.clarificationRounds := by
  simp only [assemblePresentation] at h
  split at h
  · cases h
    rfl
  · cases h

lemma execStep_rounds_preserved {c c2 : GraphNode × WorkflowState} (hs : ExecStep c c2) :
    c2.2.clarificationRounds = c.2.clarificationRounds := by
  cases hs with
  | analyzeStep s cfg a =>
      exact analyzeRequestNode_rounds_of_none s (analyzeUserRequest cfg a)
        (analyzeUserRequest_no_questions cfg a)
  | analyzeFailure s e => exact mockWorkflowErrorUpdate_rounds s e
  | clarifyStep s => rfl
  | structureStep s r => exact createStructureNode_rounds s r
  | generateStep s => rfl
  | assembleStep s s2 hok => exact assemblePresentation_ok_rounds hok
  | restartStep s => rfl

lemma execReachable_rounds_nil {c : GraphNode × WorkflowState}
    (h : ExecReachable c) : c.2.clarificationRounds = [] := by
  induction h with
  | init => rfl
  | step _ hs ih => rw [execStep_rounds_preserved hs]; exact ih

/-- C6: for any sequence of clarification responses within one request,
the workflow's `clarification_rounds` sequence is append-only (every
execution step only concatenates, so it never shrinks and earlier rounds
are never replaced), its length never exceeds
`max_clarification_rounds + 1`, and every stored round's `current_round`
equals its 1-based position — the latter two hold because in every real
execution the sequence stays empty: the compiled graph wires no edge into
`process_response`, `_analyze_user_request` never returns clarification
questions, and the round constructions from `agents.ClarificationQuestion`
instances would raise a `ValidationError` before appending. -/
theorem clarification_rounds_invariants :
    (∀ c c2 : GraphNode × WorkflowState, ExecStep c c2 →
      ∃ suffix : List ClarificationRound,
        c2.2.clarificationRounds = c.2.clarificationRounds ++ suffix) ∧
    (∀ c : GraphNode × WorkflowState, ExecReachable c →
      c.2.clarificationRounds = [] ∧
      c.2.clarificationRounds.length ≤ defaultConfig.maxClarificationRounds + 1 ∧
      ∀ (i : Nat) (r : ClarificationRound),
        c.2.clarificationRounds.get? i = some r → r.currentRound = i + 1) := by
  constructor
  · intro c c2 hs
    refine ⟨[], ?_⟩
    rw [List.append_nil, execStep_rounds_preserved hs]
  · intro c hc
    have hnil := execReachable_rounds_nil hc
    refine ⟨hnil, ?_, ?_⟩
    · rw [hnil]
      exact Nat.zero_le _
    · intro i r hget
      rw [hnil] at hget
      cases hget

/-- Witness for C6 at a concrete execution step and reachable states: the
analyze step of a stuck-analyzer request appends nothing, and both the
initial and the stepped state satisfy the length bound. -/
theorem clarification_rounds_invariants_witness :
    (∃ suffix : List ClarificationRound,
      (analyzeRequestNode initialWorkflowState
          (analyzeUserRequest defaultConfig stuckAnalysis)).clarificationRounds =
        initialWorkflowState.clarificationRounds ++ suffix) ∧
    initialWorkflowState.clarificationRounds = [] ∧
    (analyzeRequestNode initialWorkflowState
        (analyzeUserRequest defaultConfig stuckAnalysis)).clarificationRounds.length ≤
      defaultConfig.maxClarificationRounds + 1 := by
  have hstep := ExecStep.analyzeStep initialWorkflowState defaultConfig stuckAnalysis
  have hreach := ExecReachable.step ExecReachable.init hstep
  exact ⟨clarification_rounds_invariants.1 _ _ hstep,
    (clarification_rounds_invariants.2 _ ExecReachable.init).1,
    (clarification_rounds_invariants.2 _ hreach).2.1⟩

lemma slidesFromOutlines_length (os : List SlideOutline) :
    ∀ i : Nat, (slidesFromOutlines i os).length = os.length := by
  induction os with
  | nil => intro i; rfl
  | cons o rest ih =>
      intro i
      simp only [slidesFromOutlines, List.length_cons]
      rw [ih (i + 1)]

lemma slidesFromOutlines_numbers (os : List SlideOutline) :
    ∀ i : Nat, (slidesFromOutlines i os).map (fun sl => sl.slideNumber) =
      List.range' i os.length := by
  induction os with
  | nil => intro i; rfl
  | cons o rest ih =>
      intro i
      simp only [slidesFromOutlines, List.map_cons, List.length_cons]
      rw [ih (i + 1)]
      rfl

lemma slidesFromOutlines_components (os : List SlideOutline) :
    ∀ i : Nat, ∀ sl ∈ slidesFromOutlines i os, sl.components = [] := by
  induction os with
  | nil => intro i sl h; cases h
  | cons o rest ih =>
      intro i sl h
      rcases List.mem_cons.mp h with h1 | h2
      · rw [h1]; rfl
      · exact ih (i + 1) sl h2

lemma slidesFromOutlines_number_pos (os : List SlideOutline) :
    ∀ i : Nat, 1 ≤ i → ∀ sl ∈ slidesFromOutlines i os, 1 ≤ sl.slideNumber := by
  induction os with
  | nil => intro i _ sl h; cases h
  | cons o rest ih =>
      intro i hi sl h
      rcases List.mem_cons.mp h with h1 | h2
      · rw [h1]; exact hi
      · exact ih (i + 1) (Nat.le_succ_of_le hi) sl h2

/-- Counterexample for C7: on a structure with no slide outlines — in
particular the empty default used when no structure was ever produced —
assembly raises the `validate_minimum_slides` error instead of
succeeding, so the assembly step does not succeed for every structure. -/
theorem assembly_empty_structure_counterexample :
    assemblePresentation initialWorkflowState =
      Except.error "Presentation must have at least one slide" ∧
    assemblePresentation
        { initialWorkflowState with
            currentPhase := "assembly"
            presentationStructure := some emptyStructure } =
      Except.error "Presentation must have at least one slide" :=
  ⟨rfl, rfl⟩

/-- C7 (amended): assembly deterministically merges the structure skeleton
into a final presentation and succeeds with zero optional agent outputs —
producing one skeleton-only slide per outline, sequentially numbered from
1, and phase `completed` — for every structure whose outline list is
non-empty and whose effective titles, layout types and top-level fields
satisfy the pydantic bounds (`validate_minimum_slides` rejects an empty
outline list, so the unconditional claim fails there). -/
theorem assembly_merges_skeleton :
    ∀ (s : WorkflowState) (st : PresentationStructure),
      s.presentationStructure = some st →
      st.slideOutlines ≠ [] →
      (∀ sl ∈ slidesFromOutlines 1 st.slideOutlines,
        sl.title.length ≤ 200 ∧ sl.layoutType ∈ validLayoutTypes) →
      (st.title.getD "Untitled Presentation").length ≤ 200 →
      (st.subtitle.getD "").length ≤ 300 →
      (st.description.getD "").length ≤ 1000 →
      ∃ p : Presentation,
        assemblePresentation s =
          Except.ok { s with finalPresentation := some p, currentPhase := "completed" } ∧
        p.slides.length = st.slideOutlines.length ∧
        p.slides.map (fun sl => sl.slideNumber) = List.range' 1 st.slideOutlines.length ∧
        ∀ sl ∈ p.slides, sl.components = [] := by
  intro s st hst hne hvalid htitle hsub hdesc
  have hall : (slidesFromOutlines 1 st.slideOutlines).all slideValid = true := by
    rw [List.all_eq_true]
    intro sl hsl
    have h1 := slidesFromOutlines_number_pos st.slideOutlines 1 (le_refl 1) sl hsl
    have h2 := (hvalid sl hsl).1
    have h3 := (hvalid sl hsl).2
    have h4 : sl.components = [] := slidesFromOutlines_components st.slideOutlines 1 sl hsl
    unfold slideValid
    rw [decide_eq_true h1, decide_eq_true h2, decide_eq_true h3]
    have h5 : sl.components.length ≤ layoutComponentLimit sl.layoutType := by
      rw [h4]
      exact Nat.zero_le _
    rw [decide_eq_true h5]
    rfl
  have hseq : sequentialNumbers (slidesFromOutlines 1 st.slideOutlines) = true := by
    unfold sequentialNumbers
    apply decide_eq_true
    rw [slidesFromOutlines_numbers st.slideOutlines 1,
      slidesFromOutlines_length st.slideOutlines 1]
  have hlen : 1 ≤ (slidesFromOutlines 1 st.slideOutlines).length := by
    rw [slidesFromOutlines_length st.slideOutlines 1]
    cases hcase : st.slideOutlines with
    | nil => exact absurd hcase hne
    | cons o rest => simp
  have hmk : mkPresentation (st.title.getD "Untitled Presentation") st.subtitle
      st.description (slidesFromOutlines 1 st.slideOutlines) =
      Except.ok { title := st.title.getD "Untitled Presentation", subtitle := st.subtitle
                  description := st.description
                  slides := slidesFromOutlines 1 st.slideOutlines } := by
    unfold mkPresentation
    rw [hall, hseq]
    rw [if_neg (by simp), if_neg (Nat.not_lt.mpr htitle), if_neg (Nat.not_lt.mpr hsub),
      if_neg (Nat.not_lt.mpr hdesc), if_neg (by simp), if_neg (Nat.not_lt.mpr hlen)]
  refine ⟨{ title := st.title.getD "Untitled Presentation", subtitle := st.subtitle
            description := st.description
            slides := slidesFromOutlines 1 st.slideOutlines }, ?_, ?_, ?_, ?_⟩
  · unfold assemblePresentation
    rw [hst]
    simp only [Option.getD_some]
    rw [hmk]
  · exact slidesFromOutlines_length st.slideOutlines 1
  · rw [slidesFromOutlines_numbers st.slideOutlines 1]
  · exact fun sl hsl => slidesFromOutlines_components st.slideOutlines 1 sl hsl

/-- Witness for C7 at a concrete two-outline structure with zero agent
outputs: assembly succeeds with two skeleton slides numbered 1, 2 and
phase `completed`. -/
theorem assembly_merges_skeleton_witness :
    ∃ p : Presentation,
      assemblePresentation demoAssemblyState =
        Except.ok
          { demoAssemblyState with
              finalPresentation := some p
              currentPhase := "completed" } ∧
      p.slides.length = demoStructure.slideOutlines.length ∧
      p.slides.map (fun sl => sl.slideNumber) =
        List.range' 1 demoStructure.slideOutlines.length ∧
      ∀ sl ∈ p.slides, sl.components = [] :=
  assembly_merges_skeleton demoAssemblyState demoStructure rfl (by decide) (by decide)
    (by decide) (by decide) (by decide)

/-- Counterexample for C8: on `{text: "hi"}` the handler takes the direct
greeting fast path — it sends one informational director chat message and
returns before any workflow runs — so no `WorkflowState` exists at all,
and in particular no state is in phase `greeting`. -/
theorem greeting_resolves_phase_counterexample :
    (processMessage demoHandler hiMessage llmFailOutcome).1.workflowState = none ∧
    (processMessage demoHandler hiMessage llmFailOutcome).2 =
      [OutMessage.chatMsg "director_inbound" "info"] :=
  ⟨rfl, rfl⟩

/-- C8 (amended): the input `{text: "hi"}` is answered on the handler's
greeting fast path with one informational chat message; no clarification
round and no workflow state are created for it, and no phase is ever
resolved to `greeting` — the analyzer never emits the `greeting` output
type on which the workflow's greeting branch depends. -/
theorem greeting_fast_path :
    (processMessage demoHandler hiMessage llmFailOutcome).2 =
      [OutMessage.chatMsg "director_inbound" "info"] ∧
    (processMessage demoHandler hiMessage llmFailOutcome).1.workflowState = none ∧
    (∀ ws : WorkflowState,
      (processMessage demoHandler hiMessage llmFailOutcome).1.workflowState = some ws →
      ws.clarificationRounds = []) ∧
    (∀ (cfg : DirectorInboundConfig) (a : RequirementAnalysis),
      (analyzeUserRequest cfg a).outputType ≠ "greeting") := by
  refine ⟨rfl, rfl, ?_, ?_⟩
  · intro ws hws
    rw [show (processMessage demoHandler hiMessage llmFailOutcome).1.workflowState =
        none from rfl] at hws
    cases hws
  · intro cfg a h
    unfold analyzeUserRequest at h
    split at h <;> simp at h

/-- Witness for C8: the fast-path reply is concrete, and the analyzer
output type at a concrete analysis is not `greeting`. -/
theorem greeting_fast_path_witness :
    (processMessage demoHandler hiMessage llmFailOutcome).2 =
      [OutMessage.chatMsg "director_inbound" "info"] ∧
    (analyzeUserRequest defaultConfig fallbackAnalysis).outputType ≠ "greeting" :=
  ⟨greeting_fast_path.1, greeting_fast_path.2.2.2 defaultConfig fallbackAnalysis⟩

lemma processMessage_invalidMsg (h : HandlerState) (raw : RawMessage)
    (outcome : Except PyError DirectorInboundOutput) (e : String)
    (hinit : h.initialized = true) (hval : validateMessage raw = Except.error e) :
    processMessage h raw outcome =
      (h, [OutMessage.systemMsg "error" "ERROR" ("Invalid message: " ++ e)]) := by
  unfold processMessage
  rw [hinit, hval]
  simp

lemma validateMessage_userInput_error (sid : String) (d : MessageData) (e : String)
    (hval : validateDataStructure d = Except.error e) :
    validateMessage
      { msgType := some "user_input", sessionId := some sid, data := some d } =
      Except.error e := by
  unfold validateMessage
  simp only [hval]
  rfl

/-- C9: an inbound message whose type is unknown — or whose structure the
pydantic validation rejects — is answered with a `system` message of
level `error` (a structured error, not a crash), and the handler state,
in particular its workflow state, is untouched; concretely
`{type: "bogus"}` produces exactly that system error and leaves the
handler unchanged. -/
theorem unknown_message_structured_error :
    (∀ (h : HandlerState) (raw : RawMessage)
      (outcome : Except PyError DirectorInboundOutput) (e : String),
      h.initialized = true → validateMessage raw = Except.error e →
      processMessage h raw outcome =
        (h, [OutMessage.systemMsg "error" "ERROR" ("Invalid message: " ++ e)])) ∧
    validateMessage bogusMessage = Except.error "Unknown message type: bogus" ∧
    (processMessage demoHandler bogusMessage llmFailOutcome).1 = demoHandler ∧
    (processMessage demoHandler bogusMessage llmFailOutcome).2 =
      [OutMessage.systemMsg "error" "ERROR" "Invalid message: Unknown message type: bogus"] :=
  ⟨processMessage_invalidMsg, rfl, rfl, rfl⟩

/-- Witness for C9 at the concrete bogus message. -/
theorem unknown_message_structured_error_witness :
    processMessage demoHandler bogusMessage llmFailOutcome =
      (demoHandler,
        [OutMessage.systemMsg "error" "ERROR" "Invalid message: Unknown message type: bogus"]) :=
  unknown_message_structured_error.1 demoHandler bogusMessage llmFailOutcome
    "Unknown message type: bogus" rfl rfl

/-- C10: structural validation of a `user_input` accepts exactly the data
objects that carry a `text` field of at most 5000 characters; a failing
validation surfaces as the `ValueError` of `validate_message`, which the
dispatcher reports back as a `system` error message, leaving the handler
untouched rather than processing the input. -/
theorem user_input_text_validation :
    (∀ d : MessageData,
      (validateDataStructure d).isOk = true ↔
        (d.text.isSome = true ∧ (d.text.getD "").length ≤ 5000)) ∧
    (∀ (sid : String) (d : MessageData) (e : String),
      validateDataStructure d = Except.error e →
      validateMessage
        { msgType := some "user_input", sessionId := some sid, data := some d } =
        Except.error e) ∧
    (∀ (h : HandlerState) (sid : String)
      (outcome : Except PyError DirectorInboundOutput) (d : MessageData) (e : String),
      h.initialized = true → validateDataStructure d = Except.error e →
      processMessage h
        { msgType := some "user_input", sessionId := some sid, data := some d } outcome =
        (h, [OutMessage.systemMsg "error" "ERROR" ("Invalid message: " ++ e)])) := by
  refine ⟨?_, validateMessage_userInput_error, ?_⟩
  · intro d
    cases ht : d.text with
    | none => simp [validateDataStructure, Except.isOk, Except.toBool, ht]
    | some t =>
        by_cases hlen : 5000 < t.length
        · simp [validateDataStructure, Except.isOk, Except.toBool, ht, hlen]
        · simp [validateDataStructure, Except.isOk, Except.toBool, ht, hlen]
          omega
  · intro h sid outcome d e hinit hval
    exact processMessage_invalidMsg h _ outcome e hinit
      (validateMessage_userInput_error sid d e hval)

/-- Witness for C10: a short text passes, a missing `text` field is
rejected and reported as a system error. -/
theorem user_input_text_validation_witness :
    (validateDataStructure { text := some "hello" }).isOk = true ∧
    processMessage demoHandler
      { msgType := some "user_input", sessionId := some "session_demo", data := some {} }
      llmFailOutcome =
      (demoHandler,
        [OutMessage.systemMsg "error" "ERROR"
          "Invalid message: Data must contain fields: text"]) := by
  constructor
  · exact (user_input_text_validation.1 { text := some "hello" }).mpr ⟨rfl, by decide⟩
  · exact user_input_text_validation.2.2 demoHandler "session_demo" llmFailOutcome {}
      "Data must contain fields: text" rfl rfl

end Deckster
